import Mathlib

/-!
Verification of the AutoConnectRCC core: the retry wrapper, the broker
discovery cascade, the provisioning orchestrator and the session
checkpoint model, shallowly embedded from `src/rcc`.

Conventions of the embedding:
* Python exceptions are represented by their message (`String`); a
  fallible call is an `Except String α` value.
* External effects (WiFi association, Shelly HTTP-RPC calls, ping
  probes) are oracles: a field of an environment structure gives the
  outcome of the i-th invocation of that operation.
* `time.sleep` amounts are exact rationals (the Python floats involved,
  `2.0`, `5.0` and powers of two, are all exactly representable).
* Observable behaviour (invocations, callbacks, sleeps) is collected in
  explicit traces so that claims about "is invoked", "is retried" and
  "is slept" are statements about trace contents.
-/

namespace RCC

/-- Backoff kind of `retry_operation` (`"exponential"` or `"linear"`). -/
inductive Backoff
  | exponential
  | linear
deriving DecidableEq

/-- Observable events of one `retry_operation` run: an invocation of the
wrapped operation (with its 0-indexed attempt number), a call of the
`on_retry` callback (with the 1-indexed retry number and the caught
exception), and a `time.sleep` of the given duration. -/
inductive REvent (ε : Type)
  | invoke (k : Nat)
  | onRetry (n : Nat) (e : ε)
  | sleep (d : ℚ)
deriving DecidableEq

/-- Delay computed after failed attempt `attempt` (0-indexed), mirroring
`delay = delay_base * (2 ** attempt)` for `"exponential"` and
`delay = delay_base` otherwise. -/
def backoffDelay (b : Backoff) (base : ℚ) (attempt : Nat) : ℚ :=
  match b with
  | .exponential => base * 2 ^ attempt
  | .linear => base

/-- Loop body of `retry_operation` (provisioner.py:127-142).
`r` is the number of attempts still allowed (`max_retries - k`), `k` the
0-indexed index of the current attempt, `last` the `last_error`
variable.  Returns the event trace together with either the operation's
result or the payload of the final `RetryError` (the `last_error` the
`raise` on provisioner.py:144 formats into its message). -/
def retryGo (op : Nat → Except ε α) (b : Backoff) (base : ℚ) :
    Nat → Nat → Option ε → List (REvent ε) × Except (Option ε) α
  | 0, _, last => ([], .error last)
  | 1, k, _ =>
    match op k with
    | .ok a => ([.invoke k], .ok a)
    | .error e => ([.invoke k], .error (some e))
  | r + 2, k, _ =>
    match op k with
    | .ok a => ([.invoke k], .ok a)
    | .error e =>
      let rest := retryGo op b base (r + 1) (k + 1) (some e)
      (.invoke k :: .onRetry (k + 1) e :: .sleep (backoffDelay b base k) :: rest.1,
       rest.2)

/-- `retry_operation` (provisioner.py:102-144): run `op` for at most
`max_retries` attempts.  The result `Except.error le` stands for the
raised `RetryError`, whose message wraps `le` (see `retryErrorMsg`). -/
def retry_operation (op : Nat → Except ε α) (max_retries : Nat)
    (delay_base : ℚ) (backoff : Backoff) :
    List (REvent ε) × Except (Option ε) α :=
  retryGo op backoff delay_base max_retries 0 none

/-- `str(e)` of the raised `RetryError`, mirroring
`f"Operation failed after {max_retries} attempts: {last_error}"`
(Python interpolates `None` for an absent last error). -/
def retryErrorMsg (max_retries : Nat) (last : Option String) : String :=
  "Operation failed after " ++ toString max_retries ++ " attempts: " ++
    (match last with | none => "None" | some s => s)

/-- Is this event an invocation of the wrapped operation? -/
def REvent.isInvoke : REvent ε → Bool
  | .invoke _ => true
  | _ => false

/-- Number of invocations of the wrapped operation recorded in a trace. -/
def invokeCount (tr : List (REvent ε)) : Nat :=
  tr.countP (fun e => e.isInvoke)

/-- The trace §4.3 and §8 of the spec predict for a persistently failing
operation under `n = max_retries`: attempts `0, …, n-1`; after every
failed attempt `k` except the last, first `on_retry (k+1)` with the
caught error, then a sleep of `d * 2^k` (exponential) resp. `d`
(linear) — i.e. the sleep preceding attempt `k+1` is `d * 2^k`. -/
def expectedFailTrace (f : Nat → ε) (b : Backoff) (base : ℚ) (n : Nat) :
    List (REvent ε) :=
  (List.range n).flatMap fun k =>
    REvent.invoke k ::
      (if k + 1 < n then
        [REvent.onRetry (k + 1) (f k),
         REvent.sleep (match b with | .exponential => base * 2 ^ k | .linear => base)]
       else [])

theorem retryGo_fail_trace {α : Type} (f : Nat → ε) (b : Backoff) (base : ℚ) :
    ∀ (r k : Nat) (last : Option ε),
      (retryGo (fun i => (Except.error (f i) : Except ε α)) b base r k last).1 =
        (List.range r).flatMap (fun i =>
          REvent.invoke (k + i) ::
            (if i + 1 < r then
              [REvent.onRetry (k + i + 1) (f (k + i)),
               REvent.sleep (backoffDelay b base (k + i))]
             else []))
  | 0, k, last => by simp [retryGo]
  | 1, k, last => by simp [retryGo, List.range_succ]
  | (r + 2), k, last => by
    have ih := retryGo_fail_trace (α := α) f b base (r + 1) (k + 1) (some (f k))
    have hrange : List.range (r + 2) = 0 :: (List.range (r + 1)).map Nat.succ :=
      List.range_succ_eq_map (r + 1)
    simp only [retryGo, ih, hrange, List.flatMap_cons, List.flatMap_map]
    rw [if_pos (by omega : 0 + 1 < r + 2)]
    simp only [Nat.add_zero, Nat.zero_add, List.cons_append, List.nil_append,
      List.cons.injEq, true_and]
    refine List.flatMap_congr (fun i _ => ?_)
    have h1 : k + (i + 1) = k + 1 + i := by omega
    have h2 : (i + 1 + 1 < r + 2) = (i + 1 < r + 1) := by
      simp [Nat.succ_lt_succ_iff]
    simp only [Nat.succ_eq_add_one, Function.comp, h1, h2]

theorem retryGo_fail_count {α : Type} (f : Nat → ε) (b : Backoff) (base : ℚ) :
    ∀ (r k : Nat) (last : Option ε),
      invokeCount (retryGo (fun i => (Except.error (f i) : Except ε α)) b base r k last).1 = r
  | 0, _, _ => by simp [retryGo, invokeCount]
  | 1, k, _ => by simp [retryGo, invokeCount, REvent.isInvoke]
  | (r + 2), k, _ => by
    have ih := retryGo_fail_count (α := α) f b base (r + 1) (k + 1) (some (f k))
    simp [retryGo, invokeCount, REvent.isInvoke] at ih ⊢
    omega

theorem retryGo_fail_result {α : Type} (f : Nat → ε) (b : Backoff) (base : ℚ) :
    ∀ (r k : Nat) (last : Option ε), 1 ≤ r →
      (retryGo (fun i => (Except.error (f i) : Except ε α)) b base r k last).2 =
        Except.error (some (f (k + r - 1)))
  | 0, _, _, h => absurd h (by decide)
  | 1, k, _, _ => by simp [retryGo]
  | (r + 2), k, _, _ => by
    have ih := retryGo_fail_result (α := α) f b base (r + 1) (k + 1) (some (f k))
      (by omega)
    have harg : k + 1 + (r + 1) - 1 = k + (r + 2) - 1 := by omega
    simp only [retryGo]
    rw [ih, harg]

/-- C1: for every `max_attempts = n ≥ 1` and an operation failing on
every invocation, `retry_operation` invokes the operation exactly `n`
times and its outcome is the raised `RetryError` wrapping the final
underlying error `f (n-1)` (it neither returns normally nor re-raises
the underlying error unwrapped: the only raise in `retry_operation` is
`RetryError`, provisioner.py:144). -/
theorem retry_exhausts_C1 {α : Type} (n : Nat) (hn : 1 ≤ n) (f : Nat → ε)
    (base : ℚ) (b : Backoff) :
    invokeCount (retry_operation (fun k => (Except.error (f k) : Except ε α)) n base b).1 = n ∧
    (retry_operation (fun k => (Except.error (f k) : Except ε α)) n base b).2 =
      Except.error (some (f (n - 1))) := by
  refine ⟨retryGo_fail_count f b base n 0 none, ?_⟩
  have h := retryGo_fail_result (α := α) f b base n 0 none hn
  simpa using h

/-- Witness for C1 at `n = 2`. -/
theorem retry_exhausts_C1_witness :
    1 ≤ 2 ∧
    (invokeCount (retry_operation (fun _ => (Except.error "boom" : Except String Unit))
        2 1 .exponential).1 = 2 ∧
     (retry_operation (fun _ => (Except.error "boom" : Except String Unit))
        2 1 .exponential).2 = Except.error (some "boom")) :=
  ⟨by decide, retry_exhausts_C1 2 (by decide) (fun _ => "boom") 1 .exponential⟩

/-- C2: for a persistently failing operation the full event trace of
`retry_operation` is exactly the spec's predicted interleaving: after
every failed attempt `k` except the last, `on_retry (k+1, error)` is
invoked and then the run sleeps `d * 2^k` (exponential) resp. `d`
(linear); that sleep is the one preceding attempt `k+1` (retries
0-indexed, as in §8 of the spec). -/
theorem retry_backoff_C2 {α : Type} (n : Nat) (f : Nat → ε) (base : ℚ) (b : Backoff) :
    (retry_operation (fun k => (Except.error (f k) : Except ε α)) n base b).1 =
      expectedFailTrace f b base n := by
  have h := retryGo_fail_trace (α := α) f b base n 0 none
  simp only [retry_operation, h, expectedFailTrace, Nat.zero_add]
  refine List.flatMap_congr (fun i _ => ?_)
  cases b <;> simp [backoffDelay]

/-! ## Discovery engine (discovery.py) -/

/-- `DiscoveredBroker` (discovery.py:18-23). -/
structure DiscoveredBroker where
  ip : String
  hostname : Option String := none
  port : Nat := 1883
  method : String := "unknown"
deriving DecidableEq

/-- The four strategies `BrokerDiscovery.discover` cascades through, in
source order (discovery.py:31-48). -/
inductive Strategy
  | ping
  | mdns
  | zeroconf
  | networkScan
deriving DecidableEq

/-- Environment of one `discover` call: the value each strategy would
return if invoked.  Each `_try_*` helper catches all its exceptions and
returns `None` on any failure, so `Option` captures every outcome; a
`DiscoveredBroker` object is always truthy in the Python `if result:`
tests. -/
structure DiscoveryEnv where
  ping : Option DiscoveredBroker
  mdns : Option DiscoveredBroker
  zeroconf : Option DiscoveredBroker
  networkScan : Option DiscoveredBroker

/-- `BrokerDiscovery.discover` (discovery.py:31-48), instrumented with
the list of strategies actually invoked, in invocation order. -/
def discover (env : DiscoveryEnv) : Option DiscoveredBroker × List Strategy :=
  match env.ping with
  | some r => (some r, [.ping])
  | none =>
    match env.mdns with
    | some r => (some r, [.ping, .mdns])
    | none =>
      match env.zeroconf with
      | some r => (some r, [.ping, .mdns, .zeroconf])
      | none =>
        match env.networkScan with
        | some r => (some r, [.ping, .mdns, .zeroconf, .networkScan])
        | none => (none, [.ping, .mdns, .zeroconf, .networkScan])

/-- C6: the cascade tries name-probe, name-resolution, advertisement
listen, neighbour/subnet scan in this fixed order; it returns the first
strategy's success; a later strategy is invoked exactly when all earlier
ones returned `None` (in particular, a successful name-probe means the
subnet scan is never invoked); when every strategy fails the result is
`None` — `discover` returns rather than raises. -/
theorem discovery_cascade_C6 (env : DiscoveryEnv) :
    (discover env).1 = env.ping.or (env.mdns.or (env.zeroconf.or env.networkScan)) ∧
    Strategy.ping ∈ (discover env).2 ∧
    (Strategy.mdns ∈ (discover env).2 ↔ env.ping = none) ∧
    (Strategy.zeroconf ∈ (discover env).2 ↔ env.ping = none ∧ env.mdns = none) ∧
    (Strategy.networkScan ∈ (discover env).2 ↔
      env.ping = none ∧ env.mdns = none ∧ env.zeroconf = none) ∧
    ((discover env).1 = none ↔
      env.ping = none ∧ env.mdns = none ∧ env.zeroconf = none ∧
        env.networkScan = none) := by
  obtain ⟨p, m, z, s⟩ := env
  cases p <;> cases m <;> cases z <;> cases s <;>
    simp [discover, Option.or]

/-! ### The name-probe strategy and its IPv4 parse (discovery.py:50-87)

`_try_ping_discovery` extracts candidate addresses from the ping output
with `re.findall(r'(\d{1,3}\.\d{1,3}\.\d{1,3}\.\d{1,3})', output)`.
The scanner below reproduces that regex: leftmost, non-overlapping
matches; each `\d{1,3}` is greedy (longest first) with backtracking. -/

/-- Take exactly `n` leading digits; `none` if fewer are available. -/
def takeDigits : Nat → List Char → Option (List Char × List Char)
  | 0, cs => some ([], cs)
  | _ + 1, [] => none
  | n + 1, c :: cs =>
    if c.isDigit then (takeDigits n cs).map (fun p => (c :: p.1, p.2))
    else none

/-- Candidate matches of one `\d{1,3}` octet, greedy order (3, 2, 1). -/
def octetSplits (cs : List Char) : List (List Char × List Char) :=
  [3, 2, 1].filterMap (fun n => takeDigits n cs)

/-- Match a literal `.`. -/
def matchDot : List Char → Option (List Char)
  | '.' :: cs => some cs
  | _ => none

/-- Match the whole IPv4 pattern at the front of `cs`; on success return
the matched text and the remaining input. -/
def matchIPv4At (cs : List Char) : Option (List Char × List Char) :=
  (octetSplits cs).findSome? fun p1 =>
    (matchDot p1.2).bind fun r1 =>
      (octetSplits r1).findSome? fun p2 =>
        (matchDot p2.2).bind fun r2 =>
          (octetSplits r2).findSome? fun p3 =>
            (matchDot p3.2).bind fun r3 =>
              (octetSplits r3).findSome? fun p4 =>
                some (p1.1 ++ '.' :: p2.1 ++ '.' :: p3.1 ++ '.' :: p4.1, p4.2)

/-- Scan for leftmost non-overlapping pattern matches (`re.findall`).
`fuel` bounds the recursion; each step consumes at least one character
of the input, so `fuel = input length` is always enough. -/
def findIPv4Aux : Nat → List Char → List String
  | 0, _ => []
  | _ + 1, [] => []
  | fuel + 1, c :: cs =>
    match matchIPv4At (c :: cs) with
    | some (m, rest) => String.mk m :: findIPv4Aux fuel rest
    | none => findIPv4Aux fuel cs

/-- All IPv4-looking substrings of `s`, leftmost first. -/
def findIPv4 (s : String) : List String :=
  findIPv4Aux s.length s.toList

/-- Python's `str.startswith`, computed on the underlying characters
(`String.startsWith` itself is defined by well-founded recursion and
does not evaluate inside the kernel). -/
def strStartsWith (s pre : String) : Bool := pre.toList.isPrefixOf s.toList

/-- Outcome of the `subprocess.run(["ping", ...])` probe: the
`TimeoutExpired` branch, any other exception, or a completed process
with its `returncode` and captured `stdout`. -/
inductive ProbeOutcome
  | timeout
  | exc
  | done (returncode : Int) (stdout : String)

/-- `_try_ping_discovery` (discovery.py:50-87) as a function of the
probe outcome: on `returncode == 0`, take the first regex match from
the output and return it as the broker address unless it starts with
`"127."` or `"0."`; in every other case return `None`. -/
def try_ping_discovery (hostname : String) (probe : ProbeOutcome) :
    Option DiscoveredBroker :=
  match probe with
  | .timeout => none
  | .exc => none
  | .done rc out =>
    if rc = 0 then
      match findIPv4 out with
      | [] => none
      | ip :: _ =>
        if !(strStartsWith ip "127.") && !(strStartsWith ip "0.") then
          some { ip := ip, hostname := some hostname, method := "ping" }
        else none
    else none

/-- Loopback address in the sense of the spec sentence: dotted form in
`127.0.0.0/8`, i.e. starting with `"127."`. -/
def isLoopback (ip : String) : Bool := strStartsWith ip "127."

/-- Link-local address in the sense of the spec sentence: dotted form in
`169.254.0.0/16`, i.e. starting with `"169.254."`. -/
def isLinkLocal (ip : String) : Bool := strStartsWith ip "169.254."

/-- C7 counterexample: on a successful probe whose output reports the
link-local responder `169.254.1.5`, `_try_ping_discovery` returns that
address instead of rejecting it — the filter only rejects `"127."` and
`"0."` prefixes, so a link-local fallback address is returned. -/
theorem ping_linklocal_C7_counterexample :
    try_ping_discovery "RCCServer"
        (.done 0 "64 bytes from 169.254.1.5: icmp_seq=0 ttl=64") =
      some { ip := "169.254.1.5", hostname := some "RCCServer",
             port := 1883, method := "ping" } ∧
    isLinkLocal "169.254.1.5" = true := by
  constructor
  · decide
  · decide

/-- C7 amended: an address returned by the name-probe strategy never
starts with `"127."` (so it is never a loopback address) and never
starts with `"0."`; addresses are not otherwise filtered, so link-local
`169.254.*` fallback addresses are not rejected (see the
counterexample). -/
theorem ping_filter_C7_amended (hostname : String) (probe : ProbeOutcome)
    (b : DiscoveredBroker) (h : try_ping_discovery hostname probe = some b) :
    isLoopback b.ip = false ∧ strStartsWith b.ip "0." = false := by
  cases probe with
  | timeout => simp [try_ping_discovery] at h
  | exc => simp [try_ping_discovery] at h
  | done rc out =>
    simp only [try_ping_discovery] at h
    by_cases hrc : rc = 0
    · rw [if_pos hrc] at h
      cases hm : findIPv4 out with
      | nil => rw [hm] at h; simp at h
      | cons ip rest =>
        rw [hm] at h
        dsimp only at h
        by_cases hc : (!(strStartsWith ip "127.") && !(strStartsWith ip "0.")) = true
        · rw [if_pos hc] at h
          injection h with h
          subst h
          simp only [Bool.and_eq_true, Bool.not_eq_true'] at hc
          exact ⟨hc.1, hc.2⟩
        · rw [if_neg hc] at h
          exact absurd h (by simp)
    · rw [if_neg hrc] at h
      exact absurd h (by simp)

/-- Witness for the amended C7 at a concrete accepted probe output. -/
theorem ping_filter_C7_amended_witness :
    isLoopback (DiscoveredBroker.ip
      { ip := "10.0.0.7", hostname := some "RCCServer",
        port := 1883, method := "ping" }) = false ∧
    strStartsWith (DiscoveredBroker.ip
      { ip := "10.0.0.7", hostname := some "RCCServer",
        port := 1883, method := "ping" }) "0." = false :=
  ping_filter_C7_amended "RCCServer" (.done 0 "64 bytes from 10.0.0.7") _ (by decide)

/-! ## Session / checkpoint model (provisioner.py:41-94) -/

/-- `ProvisionedDevice` (provisioner.py:41-52).  The `timestamp` default
(`datetime.now().isoformat()`) is an input of the embedding. -/
structure ProvisionedDevice where
  mac : String
  ap_ssid : String
  model : String
  state : String
  assigned_name : Option String := none
  final_ip : Option String := none
  steps_completed : List String := []
  error_message : Option String := none
  timestamp : String
deriving DecidableEq

/-- `ProvisionSession` (provisioner.py:55-63). -/
structure ProvisionSession where
  session_id : String
  broker_host : String
  broker_port : Int
  devices : List ProvisionedDevice := []
  started_at : String
  completed_at : Option String := none
deriving DecidableEq

/-- JSON values as written by `json.dump` and read back by `json.load`. -/
inductive JValue
  | null
  | str (s : String)
  | num (n : Int)
  | arr (xs : List JValue)
  | obj (fields : List (String × JValue))

/-- An optional string as JSON (`None` serializes to `null`). -/
def optJson : Option String → JValue
  | none => .null
  | some s => .str s

/-- `dataclasses.asdict` of a `ProvisionedDevice` as it appears in the
checkpoint (provisioner.py:73). -/
def deviceToJson (d : ProvisionedDevice) : JValue :=
  .obj [("mac", .str d.mac),
        ("ap_ssid", .str d.ap_ssid),
        ("model", .str d.model),
        ("state", .str d.state),
        ("assigned_name", optJson d.assigned_name),
        ("final_ip", optJson d.final_ip),
        ("steps_completed", .arr (d.steps_completed.map JValue.str)),
        ("error_message", optJson d.error_message),
        ("timestamp", .str d.timestamp)]

/-- The JSON document `save_checkpoint` writes (provisioner.py:65-76). -/
def save_checkpoint (s : ProvisionSession) : JValue :=
  .obj [("session_id", .str s.session_id),
        ("broker_host", .str s.broker_host),
        ("broker_port", .num s.broker_port),
        ("started_at", .str s.started_at),
        ("completed_at", optJson s.completed_at),
        ("devices", .arr (s.devices.map deviceToJson))]

/-- `data["k"]` / `data.get("k")` on a parsed JSON object. -/
def JValue.get (j : JValue) (k : String) : Option JValue :=
  match j with
  | .obj fs => fs.lookup k
  | _ => none

/-- Read a JSON string (`none` models the `TypeError`/`KeyError` Python
would raise on an ill-typed field). -/
def JValue.asStr : JValue → Option String
  | .str s => some s
  | _ => none

/-- Read a JSON integer. -/
def JValue.asNum : JValue → Option Int
  | .num n => some n
  | _ => none

/-- Read a nullable JSON string. -/
def JValue.asOptStr : JValue → Option (Option String)
  | .null => some none
  | .str s => some (some s)
  | _ => none

/-- `ProvisionedDevice(**d)` on one entry of `data["devices"]`
(provisioner.py:91-93). -/
def deviceFromJson (j : JValue) : Option ProvisionedDevice := do
  let mac ← (j.get "mac").bind JValue.asStr
  let ap_ssid ← (j.get "ap_ssid").bind JValue.asStr
  let model ← (j.get "model").bind JValue.asStr
  let state ← (j.get "state").bind JValue.asStr
  let assigned_name ← (j.get "assigned_name").bind JValue.asOptStr
  let final_ip ← (j.get "final_ip").bind JValue.asOptStr
  let steps ← match j.get "steps_completed" with
    | some (.arr xs) => xs.mapM JValue.asStr
    | _ => none
  let error_message ← (j.get "error_message").bind JValue.asOptStr
  let timestamp ← (j.get "timestamp").bind JValue.asStr
  return { mac := mac, ap_ssid := ap_ssid, model := model, state := state,
           assigned_name := assigned_name, final_ip := final_ip,
           steps_completed := steps, error_message := error_message,
           timestamp := timestamp }

/-- `load_checkpoint` (provisioner.py:78-94): rebuild a session from the
checkpoint document.  `data.get("completed_at")` and
`data.get("devices", [])` tolerate absent keys; the `data[...]`
subscripts do not (`none` models the raised `KeyError`). -/
def load_checkpoint (j : JValue) : Option ProvisionSession := do
  let sid ← (j.get "session_id").bind JValue.asStr
  let host ← (j.get "broker_host").bind JValue.asStr
  let port ← (j.get "broker_port").bind JValue.asNum
  let started ← (j.get "started_at").bind JValue.asStr
  let completed ← match j.get "completed_at" with
    | none => some none
    | some v => v.asOptStr
  let devs ← match j.get "devices" with
    | none => some []
    | some (.arr xs) => xs.mapM deviceFromJson
    | some _ => none
  return { session_id := sid, broker_host := host, broker_port := port,
           devices := devs, started_at := started, completed_at := completed }

mutual

/-- All object keys occurring anywhere inside a JSON value. -/
def JValue.keys : JValue → List String
  | .null => []
  | .str _ => []
  | .num _ => []
  | .arr xs => keysOfList xs
  | .obj fs => keysOfFields fs

/-- Keys occurring in a list of JSON values. -/
def keysOfList : List JValue → List String
  | [] => []
  | x :: xs => x.keys ++ keysOfList xs

/-- Keys occurring in an object's field list. -/
def keysOfFields : List (String × JValue) → List String
  | [] => []
  | (k, v) :: fs => k :: (v.keys ++ keysOfFields fs)

end

theorem mapM_loop_asStr_str (xs : List String) (acc : List String) :
    List.mapM.loop JValue.asStr (xs.map JValue.str) acc =
      some (acc.reverse ++ xs) := by
  induction xs generalizing acc with
  | nil => simp [List.mapM.loop]
  | cons x xs ih => simp [List.mapM.loop, JValue.asStr, ih]

theorem deviceFromJson_deviceToJson (d : ProvisionedDevice) :
    deviceFromJson (deviceToJson d) = some d := by
  obtain ⟨mac, ap, mo, st, an, fi, sc, em, ts⟩ := d
  cases an <;> cases fi <;> cases em <;>
    simp [deviceFromJson, deviceToJson, JValue.get, List.lookup, optJson,
      JValue.asStr, JValue.asNum, JValue.asOptStr, mapM_loop_asStr_str]

theorem mapM_loop_deviceFromJson (ds : List ProvisionedDevice)
    (acc : List ProvisionedDevice) :
    List.mapM.loop deviceFromJson (ds.map deviceToJson) acc =
      some (acc.reverse ++ ds) := by
  induction ds generalizing acc with
  | nil => simp [List.mapM.loop]
  | cons d ds ih => simp [List.mapM.loop, deviceFromJson_deviceToJson, ih]

theorem mapM_deviceFromJson (ds : List ProvisionedDevice) :
    (ds.map deviceToJson).mapM deviceFromJson = some ds := by
  simpa using mapM_loop_deviceFromJson ds []

theorem keysOfList_str (xs : List String) :
    keysOfList (xs.map JValue.str) = [] := by
  induction xs with
  | nil => rfl
  | cons x xs ih => simp [keysOfList, JValue.keys, ih]

theorem keys_deviceToJson (d : ProvisionedDevice) :
    (deviceToJson d).keys =
      ["mac", "ap_ssid", "model", "state", "assigned_name", "final_ip",
       "steps_completed", "error_message", "timestamp"] := by
  obtain ⟨mac, ap, mo, st, an, fi, sc, em, ts⟩ := d
  cases an <;> cases fi <;> cases em <;>
    simp [deviceToJson, JValue.keys, keysOfFields, optJson, keysOfList_str]

/-- C9: saving a session and reloading the checkpoint yields the session
back, field for field (records, session id, broker host/port and both
timestamps included); and no object key of the serialized document is
`"password"` or `"username"` — the checkpoint never carries a
credential field. -/
theorem checkpoint_roundtrip_C9 (s : ProvisionSession) :
    load_checkpoint (save_checkpoint s) = some s ∧
    "password" ∉ (save_checkpoint s).keys ∧
    "username" ∉ (save_checkpoint s).keys := by
  obtain ⟨sid, host, port, devs, started, completed⟩ := s
  refine ⟨?_, ?_, ?_⟩
  · cases completed <;>
      simp [load_checkpoint, save_checkpoint, JValue.get, List.lookup,
        optJson, JValue.asStr, JValue.asNum, JValue.asOptStr,
        mapM_loop_deviceFromJson]
  · cases completed <;>
      · simp only [save_checkpoint, JValue.keys, keysOfFields, optJson]
        intro hmem
        induction devs with
        | nil => simp_all [keysOfList, JValue.keys, keysOfFields]
        | cons d ds ih =>
          simp_all [keysOfList, keys_deviceToJson]
  · cases completed <;>
      · simp only [save_checkpoint, JValue.keys, keysOfFields, optJson]
        intro hmem
        induction devs with
        | nil => simp_all [keysOfList, JValue.keys, keysOfFields]
        | cons d ds ih =>
          simp_all [keysOfList, keys_deviceToJson]

/-! ## Device naming (config.py:42-57)

`get_next_name` formats `f"{self.prefix}-{self.current_number:03d}"`.
The decimal rendering below is built from first principles so that the
injectivity of the generated names (needed for the batch-uniqueness
claim) is provable: `digitsLE` are the little-endian decimal digits,
`pad3Chars` the zero-padded big-endian character form. -/

/-- Little-endian decimal digits of `n` (empty for `0`; the zero padding
below makes `0` render as `"000"`, exactly like `f"{0:03d}"`).  `fuel`
bounds the recursion; `fuel = n` always suffices. -/
def digitsLEAux : Nat → Nat → List Nat
  | 0, _ => []
  | fuel + 1, n => if n < 10 then [n] else n % 10 :: digitsLEAux fuel (n / 10)

/-- Little-endian decimal digits of `n`. -/
def digitsLE (n : Nat) : List Nat := digitsLEAux n n

/-- The character of a decimal digit. -/
def digitChar : Nat → Char
  | 0 => '0' | 1 => '1' | 2 => '2' | 3 => '3' | 4 => '4'
  | 5 => '5' | 6 => '6' | 7 => '7' | 8 => '8' | 9 => '9'
  | _ => '0'

/-- Numeric value of a digit character. -/
def charVal (c : Char) : Nat := c.toNat - 48

/-- Value of a little-endian digit list. -/
def valLE : List Nat → Nat
  | [] => 0
  | d :: ds => d + 10 * valLE ds

/-- `f"{n:03d}"` (config.py:51): decimal digits of `n`, big-endian,
left-padded with `'0'` to width 3. -/
def pad3Chars (n : Nat) : List Char :=
  let ds := ((digitsLE n).map digitChar).reverse
  List.replicate (3 - ds.length) '0' ++ ds

/-- Big-endian numeric value of a character list (leading zeros do not
change it, which is what makes the padding invertible). -/
def charsVal (cs : List Char) : Nat :=
  cs.foldl (fun acc c => acc * 10 + charVal c) 0

theorem valLE_digitsLEAux : ∀ (fuel n : Nat), n ≤ fuel →
    valLE (digitsLEAux fuel n) = n
  | 0, n, h => by
    interval_cases n
    simp [digitsLEAux, valLE]
  | fuel + 1, n, h => by
    by_cases h10 : n < 10
    · simp [digitsLEAux, h10, valLE]
    · have hdiv : n / 10 ≤ fuel := by
        have := Nat.div_lt_self (by omega : 0 < n) (by omega : 1 < 10)
        omega
      simp only [digitsLEAux, h10, if_false, valLE,
        valLE_digitsLEAux fuel (n / 10) hdiv]
      omega

theorem valLE_digitsLE (n : Nat) : valLE (digitsLE n) = n :=
  valLE_digitsLEAux n n le_rfl

theorem digitsLEAux_lt : ∀ (fuel n : Nat), ∀ d ∈ digitsLEAux fuel n, d < 10
  | 0, _ => by simp [digitsLEAux]
  | fuel + 1, n => by
    by_cases h10 : n < 10
    · simp [digitsLEAux, h10]
    · simp only [digitsLEAux, h10, if_false, List.mem_cons]
      rintro d (rfl | hd)
      · exact Nat.mod_lt _ (by omega)
      · exact digitsLEAux_lt fuel (n / 10) d hd

theorem charVal_digitChar {d : Nat} (h : d < 10) :
    charVal (digitChar d) = d := by
  interval_cases d <;> decide

theorem foldl_replicate_zeros (k : Nat) (ds : List Char) :
    (List.replicate k '0' ++ ds).foldl (fun acc c => acc * 10 + charVal c) 0 =
      ds.foldl (fun acc c => acc * 10 + charVal c) 0 := by
  induction k with
  | zero => simp
  | succ k ih =>
    have h0 : (0 * 10 + charVal '0') = 0 := by decide
    simpa [List.replicate_succ, h0] using ih

theorem foldl_rev_digits (ds : List Nat) (h : ∀ d ∈ ds, d < 10) :
    ∀ acc : Nat,
      ((ds.map digitChar).reverse).foldl (fun a c => a * 10 + charVal c) acc =
        acc * 10 ^ ds.length + valLE ds := by
  induction ds with
  | nil => intro acc; simp [valLE]
  | cons d ds ih =>
    intro acc
    simp only [List.map_cons, List.reverse_cons, List.foldl_append,
      List.foldl_cons, List.foldl_nil]
    rw [ih (fun x hx => h x (List.mem_cons_of_mem _ hx)) acc,
      charVal_digitChar (h d (List.mem_cons_self _ _))]
    simp [valLE, List.length_cons, pow_succ]
    ring

theorem charsVal_pad3Chars (n : Nat) : charsVal (pad3Chars n) = n := by
  unfold pad3Chars charsVal
  rw [foldl_replicate_zeros,
    foldl_rev_digits (digitsLE n) (digitsLEAux_lt n n) 0]
  simpa using valLE_digitsLE n

/-- `DeviceNamingConfig` (config.py:42-57); the field `prefix` of the
source is called `prefix_str` here. -/
structure DeviceNamingConfig where
  prefix_str : String := "RCC-Device"
  start_number : Nat := 1
  current_number : Nat := 1
deriving DecidableEq

/-- The name generated for counter value `n`:
`f"{prefix}-{n:03d}"` (config.py:51). -/
def deviceName (p : String) (n : Nat) : String :=
  String.mk (p.toList ++ '-' :: pad3Chars n)

/-- `get_next_name` (config.py:49-53): produce the next name and
increment the counter (never decrement — config.py has no decrement
anywhere; `reset` sets it back to `start_number` but is not called by
the provisioner). -/
def get_next_name (c : DeviceNamingConfig) : String × DeviceNamingConfig :=
  (deviceName c.prefix_str c.current_number,
   { c with current_number := c.current_number + 1 })

theorem deviceName_inj (p : String) {a b : Nat}
    (h : deviceName p a = deviceName p b) : a = b := by
  unfold deviceName at h
  have hl : p.toList ++ '-' :: pad3Chars a = p.toList ++ '-' :: pad3Chars b := by
    have := congrArg String.data h
    simpa using this
  have hp : pad3Chars a = pad3Chars b := by
    have h2 := List.append_cancel_left hl
    exact (List.cons.injEq _ _ _ _).mp h2 |>.2
  have := congrArg charsVal hp
  simpa [charsVal_pad3Chars] using this

/-! ## WiFi network and Shelly device info (wifi_manager.py, shelly_api.py) -/

/-- Python's `str.lower()` on the underlying characters. -/
def strToLower (s : String) : String := String.mk (s.toList.map Char.toLower)

/-- Does `sub` occur as a contiguous run inside the list? -/
def listIsInfixOf (sub : List Char) : List Char → Bool
  | [] => sub.isEmpty
  | c :: rest => sub.isPrefixOf (c :: rest) || listIsInfixOf sub rest

/-- Python's `sub in s` substring test. -/
def strContains (s sub : String) : Bool := listIsInfixOf sub.toList s.toList

/-- Python's `str.split(sep)` for a one-character separator (keeps empty
pieces, like `"a-b-".split("-") == ["a","b",""]`). -/
def splitOnChar (sep : Char) : List Char → List (List Char)
  | [] => [[]]
  | c :: rest =>
    let r := splitOnChar sep rest
    if c = sep then [] :: r
    else
      match r with
      | [] => [[c]]
      | g :: gs => (c :: g) :: gs

/-- `WiFiNetwork` (wifi_manager.py:12-68). -/
structure WiFiNetwork where
  ssid : String
  signal : Int
  security : String := "Open"
  bssid : Option String := none
deriving DecidableEq

/-- `is_shelly` (wifi_manager.py:20-23). -/
def WiFiNetwork.is_shelly (w : WiFiNetwork) : Bool :=
  strStartsWith (strToLower w.ssid) "shelly"

/-- `shelly_model` (wifi_manager.py:25-53). -/
def WiFiNetwork.shelly_model (w : WiFiNetwork) : String :=
  if !w.is_shelly then "Unknown"
  else
    let sl := strToLower w.ssid
    if strContains sl "plus1pm" then "Plus 1PM"
    else if strContains sl "plus1" then "Plus 1"
    else if strContains sl "plus2pm" then "Plus 2PM"
    else if strContains sl "pro4pm" then "Pro 4PM"
    else if strContains sl "pro2pm" then "Pro 2PM"
    else if strContains sl "pro1pm" then "Pro 1PM"
    else if strContains sl "pro1" then "Pro 1"
    else if strContains sl "plugs" then "Plug S"
    else if strContains sl "mini1" then "Mini 1"
    else "Unknown Model"

/-- `mac_address` (wifi_manager.py:55-68). -/
def WiFiNetwork.mac_address (w : WiFiNetwork) : Option String :=
  if !w.is_shelly then none
  else
    let parts := splitOnChar '-' w.ssid.toList
    if parts.length ≥ 2 then
      match parts.getLast? with
      | none => none
      | some last =>
        let mac := last.map Char.toUpper
        if mac.length = 12 &&
            mac.all (fun c => ("0123456789ABCDEF".toList).contains c) then
          some (String.mk mac)
        else none
    else none

/-- `ShellyDeviceInfo` (shelly_api.py:12-21). -/
structure ShellyDeviceInfo where
  id : String
  mac : String
  model : String
  gen : Int
  fw_id : String
  ver : String
  app : String
deriving DecidableEq

/-- `friendly_name` (shelly_api.py:22-37): `app_map.get(self.app, self.app)`. -/
def ShellyDeviceInfo.friendly_name (i : ShellyDeviceInfo) : String :=
  match i.app with
  | "Plus1" => "Shelly Plus 1"
  | "Plus1PM" => "Shelly Plus 1PM"
  | "Plus2PM" => "Shelly Plus 2PM"
  | "Pro1" => "Shelly Pro 1"
  | "Pro1PM" => "Shelly Pro 1PM"
  | "Pro2" => "Shelly Pro 2"
  | "Pro2PM" => "Shelly Pro 2PM"
  | "Pro4PM" => "Shelly Pro 4PM"
  | "PlugS" => "Shelly Plug S"
  | "Mini1" => "Shelly Mini 1"
  | a => a

/-! ## The provisioner (provisioner.py:147-434)

`provision_device` is a single `try` block of sequential steps with two
`except` clauses.  Each step is embedded as a function on an execution
state; the `Flow` type carries either the state or the exception being
propagated to the handlers.  Oracles give each effectful call's
outcome; invocation counts record which operations ran how often. -/

/-- The `ProvisioningOptions` fields the provisioner reads
(config.py:60-71). -/
structure ProvisioningOptions where
  disable_shelly_ap : Bool := true
  disable_shelly_cloud : Bool := true
  verify_after_provision : Bool := true
  max_retries : Nat := 3
  retry_delay_base : ℚ := 2
  api_timeout : ℚ := 10
  wifi_connect_timeout : ℚ := 30

/-- Oracle for the effectful calls of one `provision_device` run; for
the retried operations, index `i` gives the outcome of the `i`-th
invocation.  `Except.error msg` is a raised exception with
`str(e) = msg`. -/
structure DeviceEnv where
  connect_to_shelly : Nat → Except String Bool
  get_device_info : Nat → Except String ShellyDeviceInfo
  configure_mqtt : Nat → Except String Unit
  configure_wifi : Nat → Except String Unit
  disable_cloud : Except String Unit
  set_device_name : Except String Unit
  set_discoverable : Except String Unit
  reboot : Except String Unit
  rollback_mqtt : Except String Unit

/-- Invocation counts of the oracle operations in one run. -/
structure Counts where
  connect_to_shelly : Nat := 0
  get_device_info : Nat := 0
  configure_mqtt : Nat := 0
  configure_wifi : Nat := 0
  disable_cloud : Nat := 0
  set_device_name : Nat := 0
  set_discoverable : Nat := 0
  reboot : Nat := 0
  rollback_mqtt : Nat := 0
deriving DecidableEq

/-- Which `except` clause (if any) handled the run
(provisioner.py:338-349). -/
inductive ExcKind
  | noExc
  | retryError
  | otherExc
deriving DecidableEq

/-- Execution state inside the `try` block: the mutable `device` record,
the invocation counts so far, and the operator's WiFi association. -/
structure St where
  dev : ProvisionedDevice
  cnt : Counts
  wifi : Option String

/-- A step's outcome: the updated state, or a raised exception carrying
its kind, `str(e)`, whether the `api` local variable exists at the
raise site (provisioner.py:344 checks `'api' in dir()`), and the state
at raise time. -/
inductive Flow
  | ok (s : St)
  | raised (kind : ExcKind) (msg : String) (apiCreated : Bool) (s : St)

/-- Sequencing: a raised exception skips the remaining steps. -/
def Flow.bind : Flow → (St → Flow) → Flow
  | .ok s, g => g s
  | .raised k m a s, _ => .raised k m a s

/-- The state carried by a flow (for stating invariants). -/
def Flow.st : Flow → St
  | .ok s => s
  | .raised _ _ _ s => s

/-- `retry_operation` as invoked by the steps: invocation count and
outcome. -/
def runRetry (op : Nat → Except ε α) (max_retries : Nat) (delay_base : ℚ)
    (backoff : Backoff) : Nat × Except (Option ε) α :=
  let r := retry_operation op max_retries delay_base backoff
  (invokeCount r.1, r.2)

/-- Step 1 (provisioner.py:218-237): connect to the Shelly AP, retried
with linear backoff and `delay_base=5.0`; a falsy return raises the
generic `Exception("Failed to connect to Shelly AP")`; a truthy return
records `"connect_ap"` and moves the association to the device's AP. -/
def stepConnect (opts : ProvisioningOptions) (env : DeviceEnv)
    (network : WiFiNetwork) (s : St) : Flow :=
  let s := { s with dev := { s.dev with state := "connecting" } }
  let c := runRetry env.connect_to_shelly opts.max_retries 5 .linear
  let s := { s with cnt := { s.cnt with connect_to_shelly := c.1 } }
  match c.2 with
  | .error le => .raised .retryError (retryErrorMsg opts.max_retries le) false s
  | .ok success =>
    if success then
      .ok { s with
        dev := { s.dev with
          steps_completed := s.dev.steps_completed ++ ["connect_ap"] }
        wifi := some network.ssid }
    else .raised .otherExc "Failed to connect to Shelly AP" false s

/-- Step 2 (provisioner.py:239-257): fetch device info (exponential
backoff, `retry_delay_base`); on success overwrite `mac` and `model`
and record `"get_info"`. -/
def stepGetInfo (opts : ProvisioningOptions) (env : DeviceEnv) (s : St) : Flow :=
  let s := { s with dev := { s.dev with state := "getting_info" } }
  let c := runRetry env.get_device_info opts.max_retries opts.retry_delay_base .exponential
  let s := { s with cnt := { s.cnt with get_device_info := c.1 } }
  match c.2 with
  | .error le => .raised .retryError (retryErrorMsg opts.max_retries le) true s
  | .ok info =>
    .ok { s with
      dev := { s.dev with
        mac := info.mac
        model := info.friendly_name
        steps_completed := s.dev.steps_completed ++ ["get_info"] } }

/-- Step 3 (provisioner.py:259-277): configure MQTT (retried); on
success record `"config_mqtt"`. -/
def stepConfigMqtt (opts : ProvisioningOptions) (env : DeviceEnv) (s : St) : Flow :=
  let s := { s with dev := { s.dev with state := "config_mqtt" } }
  let c := runRetry env.configure_mqtt opts.max_retries opts.retry_delay_base .exponential
  let s := { s with cnt := { s.cnt with configure_mqtt := c.1 } }
  match c.2 with
  | .error le => .raised .retryError (retryErrorMsg opts.max_retries le) true s
  | .ok _ =>
    .ok { s with
      dev := { s.dev with
        steps_completed := s.dev.steps_completed ++ ["config_mqtt"] } }

/-- Step 4 (provisioner.py:279-295): configure WiFi (retried); on
success record `"config_wifi"`. -/
def stepConfigWifi (opts : ProvisioningOptions) (env : DeviceEnv) (s : St) : Flow :=
  let s := { s with dev := { s.dev with state := "config_wifi" } }
  let c := runRetry env.configure_wifi opts.max_retries opts.retry_delay_base .exponential
  let s := { s with cnt := { s.cnt with configure_wifi := c.1 } }
  match c.2 with
  | .error le => .raised .retryError (retryErrorMsg opts.max_retries le) true s
  | .ok _ =>
    .ok { s with
      dev := { s.dev with
        steps_completed := s.dev.steps_completed ++ ["config_wifi"] } }

/-- Step 5 (provisioner.py:297-308): optionally disable the cloud; a
single unretried call; any exception is swallowed and the step name is
then not recorded. -/
def stepDisableCloud (opts : ProvisioningOptions) (env : DeviceEnv) (s : St) : Flow :=
  if opts.disable_shelly_cloud then
    let s := { s with
      dev := { s.dev with state := "disable_cloud" }
      cnt := { s.cnt with disable_cloud := 1 } }
    match env.disable_cloud with
    | .ok _ =>
      .ok { s with
        dev := { s.dev with
          steps_completed := s.dev.steps_completed ++ ["disable_cloud"] } }
    | .error _ => .ok s
  else .ok s

/-- Step 6 (provisioner.py:310-321): rename; `set_device_name` then
`set_discoverable(False)`, single unretried calls inside one `try`; any
exception is swallowed and `"rename"` is then not recorded. -/
def stepRename (env : DeviceEnv) (s : St) : Flow :=
  let s := { s with
    dev := { s.dev with state := "rename" }
    cnt := { s.cnt with set_device_name := 1 } }
  match env.set_device_name with
  | .error _ => .ok s
  | .ok _ =>
    let s := { s with cnt := { s.cnt with set_discoverable := 1 } }
    match env.set_discoverable with
    | .error _ => .ok s
    | .ok _ =>
      .ok { s with
        dev := { s.dev with
          steps_completed := s.dev.steps_completed ++ ["rename"] } }

/-- Step 7 (provisioner.py:323-336): reboot; a single call whose
exception is swallowed either way; `"reboot"` is recorded and the
device marked completed regardless of the call's outcome. -/
def stepReboot (env : DeviceEnv) (s : St) : Flow :=
  let s := { s with cnt := { s.cnt with reboot := 1 } }
  match env.reboot with
  | .ok _ =>
    .ok { s with
      dev := { s.dev with
        steps_completed := s.dev.steps_completed ++ ["reboot"]
        state := "completed" } }
  | .error _ =>
    .ok { s with
      dev := { s.dev with
        steps_completed := s.dev.steps_completed ++ ["reboot"]
        state := "completed" } }

/-- `_rollback_device` (provisioner.py:357-376): the MQTT-disable call
is issued iff an API object exists and `"config_mqtt"` was completed;
the record is marked `rolled_back` unless that call raises (when no
call is needed, the marking always happens — including for devices
that failed before any configuration).  Returns the record and the
number of rollback calls issued. -/
def rollback_device (env : DeviceEnv) (apiCreated : Bool)
    (dev : ProvisionedDevice) : ProvisionedDevice × Nat :=
  if apiCreated && dev.steps_completed.contains "config_mqtt" then
    match env.rollback_mqtt with
    | .ok _ => ({ dev with state := "rolled_back" }, 1)
    | .error _ => (dev, 1)
  else
    ({ dev with state := "rolled_back" }, 0)

/-- Result of one `provision_device` call. -/
structure RunResult where
  device : ProvisionedDevice
  counts : Counts
  wifi : Option String
  exc : ExcKind

/-- The `except` clauses (provisioner.py:338-349) and the final
`return device`. -/
def finishDevice (env : DeviceEnv) (f : Flow) : St × ExcKind :=
  match f with
  | .ok s => (s, .noExc)
  | .raised .retryError msg apiCreated s =>
    let dev := { s.dev with state := "failed", error_message := some msg }
    let rb := rollback_device env apiCreated dev
    ({ s with dev := rb.1, cnt := { s.cnt with rollback_mqtt := rb.2 } },
     .retryError)
  | .raised k msg _ s =>
    ({ s with dev := { s.dev with state := "failed", error_message := some msg } }, k)

/-- The `try` body of `provision_device`: the seven steps in sequence
(provisioner.py:217-336). -/
def deviceSteps (opts : ProvisioningOptions) (env : DeviceEnv)
    (network : WiFiNetwork) (s0 : St) : Flow :=
  (stepConnect opts env network s0).bind fun s =>
    (stepGetInfo opts env s).bind fun s =>
      (stepConfigMqtt opts env s).bind fun s =>
        (stepConfigWifi opts env s).bind fun s =>
          (stepDisableCloud opts env s).bind fun s =>
            (stepRename env s).bind fun s =>
              stepReboot env s

/-- `provision_device` (provisioner.py:189-355).  `device_name?` is the
optional explicit name (Python treats `None` and `""` as absent and
then draws from the naming counter); `wifi` is the operator's current
association; `now` the record timestamp. -/
def provision_device (opts : ProvisioningOptions) (env : DeviceEnv)
    (network : WiFiNetwork) (device_name? : Option String)
    (naming : DeviceNamingConfig) (wifi : Option String) (now : String) :
    RunResult × DeviceNamingConfig :=
  let nm := match device_name? with
    | some s => if s = "" then get_next_name naming else (s, naming)
    | none => get_next_name naming
  let dev0 : ProvisionedDevice :=
    { mac := (network.mac_address).getD "unknown"
      ap_ssid := network.ssid
      model := network.shelly_model
      state := "pending"
      assigned_name := some nm.1
      timestamp := now }
  let s0 : St := { dev := dev0, cnt := {}, wifi := wifi }
  let fin := finishDevice env (deviceSteps opts env network s0)
  ({ device := fin.1.dev, counts := fin.1.cnt, wifi := fin.1.wifi, exc := fin.2 },
   nm.2)

/-! ### Helper lemmas about the retry wrapper and the step functions -/

/-- Did a call return without raising? -/
def exOk : Except String Unit → Bool
  | .ok _ => true
  | .error _ => false

/-- The run of `provision_device` with an auto-generated name, as the
batch loop performs it. -/
def runDev (opts : ProvisioningOptions) (env : DeviceEnv)
    (network : WiFiNetwork) (naming : DeviceNamingConfig)
    (wifi : Option String) (now : String) : RunResult :=
  (provision_device opts env network none naming wifi now).1

theorem retryErrorMsg_ne_empty (n : Nat) (last : Option String) :
    retryErrorMsg n last ≠ "" := by
  intro h
  have hlen := congrArg String.length h
  have h23 : ("Operation failed after " : String).length = 23 := by decide
  simp [retryErrorMsg, String.length_append, h23] at hlen

theorem runRetry_ok_first {ε α : Type} (op : Nat → Except ε α) (a : α)
    (h : op 0 = .ok a) (base : ℚ) (b : Backoff) :
    ∀ n, 1 ≤ n → runRetry op n base b = (1, .ok a)
  | 0, hn => absurd hn (by decide)
  | 1, _ => by
    simp [runRetry, retry_operation, retryGo, h, invokeCount, REvent.isInvoke]
  | (n + 2), _ => by
    simp [runRetry, retry_operation, retryGo, h, invokeCount, REvent.isInvoke]

theorem runRetry_all_fail {ε α : Type} (op : Nat → Except ε α) (f : Nat → ε)
    (h : ∀ k, op k = .error (f k)) (n : Nat) (hn : 1 ≤ n)
    (base : ℚ) (b : Backoff) :
    runRetry op n base b = (n, .error (some (f (n - 1)))) := by
  have hop : op = fun i => Except.error (f i) := funext h
  subst hop
  have h1 := retryGo_fail_count (α := α) f b base n 0 none
  have h2 := retryGo_fail_result (α := α) f b base n 0 none hn
  rw [Nat.zero_add] at h2
  simp [runRetry, retry_operation, h1, h2]

theorem Flow.bind_ok {f : Flow} {g : St → Flow} {s : St}
    (h : f.bind g = .ok s) : ∃ s', f = .ok s' ∧ g s' = .ok s := by
  cases f with
  | ok s' => exact ⟨s', rfl, h⟩
  | raised k m a s' => simp [Flow.bind] at h

/-- A step function that writes neither `ap_ssid` nor `assigned_name`
nor the association-independent `timestamp`. -/
def Frame (g : St → Flow) : Prop :=
  ∀ s, ((g s).st).dev.ap_ssid = s.dev.ap_ssid ∧
       ((g s).st).dev.assigned_name = s.dev.assigned_name ∧
       ((g s).st).dev.timestamp = s.dev.timestamp

theorem Frame.comp {g h : St → Flow} (hg : Frame g) (hh : Frame h) :
    Frame (fun s => (g s).bind h) := by
  intro s
  have h1 := hg s
  show ((g s).bind h).st.dev.ap_ssid = s.dev.ap_ssid ∧
       ((g s).bind h).st.dev.assigned_name = s.dev.assigned_name ∧
       ((g s).bind h).st.dev.timestamp = s.dev.timestamp
  cases hgs : g s with
  | ok s' =>
    rw [hgs] at h1
    simp only [Flow.st] at h1
    have h2 := hh s'
    simp only [Flow.bind]
    exact ⟨h2.1.trans h1.1, h2.2.1.trans h1.2.1, h2.2.2.trans h1.2.2⟩
  | raised k m a s' =>
    rw [hgs] at h1
    simpa [Flow.bind, Flow.st] using h1

theorem stepConnect_frame (opts : ProvisioningOptions) (env : DeviceEnv)
    (network : WiFiNetwork) : Frame (stepConnect opts env network) := by
  intro s
  unfold stepConnect
  dsimp only
  split
  · simp [Flow.st]
  · split <;> simp [Flow.st]

theorem stepGetInfo_frame (opts : ProvisioningOptions) (env : DeviceEnv) :
    Frame (stepGetInfo opts env) := by
  intro s
  unfold stepGetInfo
  dsimp only
  split <;> simp [Flow.st]

theorem stepConfigMqtt_frame (opts : ProvisioningOptions) (env : DeviceEnv) :
    Frame (stepConfigMqtt opts env) := by
  intro s
  unfold stepConfigMqtt
  dsimp only
  split <;> simp [Flow.st]

theorem stepConfigWifi_frame (opts : ProvisioningOptions) (env : DeviceEnv) :
    Frame (stepConfigWifi opts env) := by
  intro s
  unfold stepConfigWifi
  dsimp only
  split <;> simp [Flow.st]

theorem stepDisableCloud_frame (opts : ProvisioningOptions) (env : DeviceEnv) :
    Frame (stepDisableCloud opts env) := by
  intro s
  unfold stepDisableCloud
  dsimp only
  split
  · split <;> simp [Flow.st]
  · simp [Flow.st]

theorem stepRename_frame (env : DeviceEnv) : Frame (stepRename env) := by
  intro s
  unfold stepRename
  dsimp only
  split
  · simp [Flow.st]
  · split <;> simp [Flow.st]

theorem stepReboot_frame (env : DeviceEnv) : Frame (stepReboot env) := by
  intro s
  unfold stepReboot
  dsimp only
  split <;> simp [Flow.st]

theorem deviceSteps_frame (opts : ProvisioningOptions) (env : DeviceEnv)
    (network : WiFiNetwork) : Frame (deviceSteps opts env network) := by
  have h :=
    (stepConnect_frame opts env network).comp
      ((stepGetInfo_frame opts env).comp
        ((stepConfigMqtt_frame opts env).comp
          ((stepConfigWifi_frame opts env).comp
            ((stepDisableCloud_frame opts env).comp
              ((stepRename_frame env).comp (stepReboot_frame env))))))
  exact h

theorem stepReboot_ok_completed (env : DeviceEnv) (s s' : St)
    (h : stepReboot env s = .ok s') : s'.dev.state = "completed" := by
  cases henv : env.reboot <;>
    · simp only [stepReboot, henv, Flow.ok.injEq] at h
      rw [← h]

theorem deviceSteps_ok_completed (opts : ProvisioningOptions) (env : DeviceEnv)
    (network : WiFiNetwork) (s0 s : St)
    (h : deviceSteps opts env network s0 = .ok s) : s.dev.state = "completed" := by
  unfold deviceSteps at h
  obtain ⟨s1, _, h⟩ := Flow.bind_ok h
  obtain ⟨s2, _, h⟩ := Flow.bind_ok h
  obtain ⟨s3, _, h⟩ := Flow.bind_ok h
  obtain ⟨s4, _, h⟩ := Flow.bind_ok h
  obtain ⟨s5, _, h⟩ := Flow.bind_ok h
  obtain ⟨s6, _, h⟩ := Flow.bind_ok h
  exact stepReboot_ok_completed env s6 s h

theorem rollback_device_fields (env : DeviceEnv) (a : Bool)
    (d : ProvisionedDevice) :
    ((rollback_device env a d).1).ap_ssid = d.ap_ssid ∧
    ((rollback_device env a d).1).assigned_name = d.assigned_name ∧
    ((rollback_device env a d).1).timestamp = d.timestamp ∧
    (((rollback_device env a d).1).state = "rolled_back" ∨
     ((rollback_device env a d).1).state = d.state) := by
  unfold rollback_device
  split
  · cases env.rollback_mqtt <;> simp
  · simp

theorem finishDevice_frame (env : DeviceEnv) (fl : Flow) :
    ((finishDevice env fl).1).dev.ap_ssid = (fl.st).dev.ap_ssid ∧
    ((finishDevice env fl).1).dev.assigned_name = (fl.st).dev.assigned_name ∧
    ((finishDevice env fl).1).dev.timestamp = (fl.st).dev.timestamp := by
  cases fl with
  | ok s => simp [finishDevice, Flow.st]
  | raised k m a s =>
    cases k with
    | noExc => simp [finishDevice, Flow.st]
    | retryError =>
      have h := rollback_device_fields env a
        { s.dev with state := "failed", error_message := some m }
      simp only [finishDevice, Flow.st]
      exact ⟨h.1, h.2.1, h.2.2.1⟩
    | otherExc => simp [finishDevice, Flow.st]

theorem finishDevice_terminal (env : DeviceEnv) (fl : Flow)
    (hok : ∀ s, fl = .ok s → s.dev.state = "completed") :
    ((finishDevice env fl).1).dev.state = "completed" ∨
    ((finishDevice env fl).1).dev.state = "failed" ∨
    ((finishDevice env fl).1).dev.state = "rolled_back" := by
  cases fl with
  | ok s => left; simpa [finishDevice] using hok s rfl
  | raised k m a s =>
    cases k with
    | noExc => right; left; simp [finishDevice]
    | retryError =>
      have h := (rollback_device_fields env a
        { s.dev with state := "failed", error_message := some m }).2.2.2
      simp only [finishDevice]
      rcases h with h | h
      · right; right; exact h
      · right; left; simpa using h
    | otherExc => right; left; simp [finishDevice]

/-- Initial record and state of a run with an auto-generated name
(provisioner.py:204-215). -/
def initSt (network : WiFiNetwork) (naming : DeviceNamingConfig)
    (wifi : Option String) (now : String) : St :=
  { dev := { mac := (network.mac_address).getD "unknown"
             ap_ssid := network.ssid
             model := network.shelly_model
             state := "pending"
             assigned_name := some (get_next_name naming).1
             timestamp := now }
    cnt := {}
    wifi := wifi }

theorem provision_device_none (opts : ProvisioningOptions) (env : DeviceEnv)
    (network : WiFiNetwork) (naming : DeviceNamingConfig)
    (wifi : Option String) (now : String) :
    provision_device opts env network none naming wifi now =
      (let fin := finishDevice env
        (deviceSteps opts env network (initSt network naming wifi now))
       ({ device := fin.1.dev, counts := fin.1.cnt, wifi := fin.1.wifi,
          exc := fin.2 },
        (get_next_name naming).2)) := rfl

theorem provision_device_shape (opts : ProvisioningOptions) (env : DeviceEnv)
    (network : WiFiNetwork) (naming : DeviceNamingConfig)
    (wifi : Option String) (now : String) :
    (runDev opts env network naming wifi now).device.ap_ssid = network.ssid ∧
    (runDev opts env network naming wifi now).device.assigned_name =
      some (deviceName naming.prefix_str naming.current_number) ∧
    (runDev opts env network naming wifi now).device.timestamp = now ∧
    (provision_device opts env network none naming wifi now).2 =
      { naming with current_number := naming.current_number + 1 } ∧
    ((runDev opts env network naming wifi now).device.state = "completed" ∨
     (runDev opts env network naming wifi now).device.state = "failed" ∨
     (runDev opts env network naming wifi now).device.state = "rolled_back") := by
  have hframe := deviceSteps_frame opts env network (initSt network naming wifi now)
  have hfin := finishDevice_frame env
    (deviceSteps opts env network (initSt network naming wifi now))
  have hterm := finishDevice_terminal env
    (deviceSteps opts env network (initSt network naming wifi now))
    (fun s hs => deviceSteps_ok_completed opts env network _ s hs)
  refine ⟨?_, ?_, ?_, ?_, ?_⟩
  · show (provision_device opts env network none naming wifi now).1.device.ap_ssid = _
    rw [provision_device_none]
    exact (hfin.1.trans hframe.1).trans rfl
  · show (provision_device opts env network none naming wifi now).1.device.assigned_name = _
    rw [provision_device_none]
    exact (hfin.2.1.trans hframe.2.1).trans rfl
  · show (provision_device opts env network none naming wifi now).1.device.timestamp = _
    rw [provision_device_none]
    exact (hfin.2.2.trans hframe.2.2).trans rfl
  · simp [provision_device_none, get_next_name]
  · show (provision_device opts env network none naming wifi now).1.device.state = _ ∨ _ ∨ _
    rw [provision_device_none]
    exact hterm

/-! ### C4: mandatory-step failure, rollback and terminal marking -/

/-- C4 amended, instantiated at each mandatory step: when a mandatory
step exhausts its `max_retries` attempts (being invoked exactly
`max_retries` times), the run is handled by the `RetryError` clause and
the record carries the non-empty formatted message wrapping the final
underlying error; the rollback (MQTT-disable) call is issued iff
`"config_mqtt"` is among the completed steps; and the record is marked
`rolled_back` whenever the rollback routine does not itself raise —
including when no disable call was needed — while it stays `failed`
exactly when the issued disable call raises.  (The original claim's
"marked RolledBack only when such an attempt was made" is false: see
the counterexample.) -/
theorem retry_failure_rollback_C4_amended
    (opts : ProvisioningOptions) (env : DeviceEnv) (network : WiFiNetwork)
    (naming : DeviceNamingConfig) (wifi : Option String) (now : String)
    (f : Nat → String) (hn : 1 ≤ opts.max_retries) :
    ((∀ k, env.connect_to_shelly k = .error (f k)) →
      (runDev opts env network naming wifi now).exc = .retryError ∧
      (runDev opts env network naming wifi now).device.error_message =
        some (retryErrorMsg opts.max_retries (some (f (opts.max_retries - 1)))) ∧
      retryErrorMsg opts.max_retries (some (f (opts.max_retries - 1))) ≠ "" ∧
      (runDev opts env network naming wifi now).counts.connect_to_shelly =
        opts.max_retries ∧
      (runDev opts env network naming wifi now).counts.rollback_mqtt = 0 ∧
      (runDev opts env network naming wifi now).device.steps_completed.contains
        "config_mqtt" = false ∧
      (runDev opts env network naming wifi now).device.state = "rolled_back") ∧
    (env.connect_to_shelly 0 = .ok true →
     (∀ k, env.get_device_info k = .error (f k)) →
      (runDev opts env network naming wifi now).exc = .retryError ∧
      (runDev opts env network naming wifi now).counts.get_device_info =
        opts.max_retries ∧
      (runDev opts env network naming wifi now).counts.rollback_mqtt = 0 ∧
      (runDev opts env network naming wifi now).device.steps_completed.contains
        "config_mqtt" = false ∧
      (runDev opts env network naming wifi now).device.state = "rolled_back") ∧
    (∀ info, env.connect_to_shelly 0 = .ok true →
      env.get_device_info 0 = .ok info →
      (∀ k, env.configure_mqtt k = .error (f k)) →
      (runDev opts env network naming wifi now).exc = .retryError ∧
      (runDev opts env network naming wifi now).counts.configure_mqtt =
        opts.max_retries ∧
      (runDev opts env network naming wifi now).counts.rollback_mqtt = 0 ∧
      (runDev opts env network naming wifi now).device.steps_completed.contains
        "config_mqtt" = false ∧
      (runDev opts env network naming wifi now).device.state = "rolled_back") ∧
    (∀ info, env.connect_to_shelly 0 = .ok true →
      env.get_device_info 0 = .ok info →
      env.configure_mqtt 0 = .ok () →
      (∀ k, env.configure_wifi k = .error (f k)) →
      (runDev opts env network naming wifi now).exc = .retryError ∧
      (runDev opts env network naming wifi now).counts.configure_wifi =
        opts.max_retries ∧
      (runDev opts env network naming wifi now).counts.rollback_mqtt = 1 ∧
      (runDev opts env network naming wifi now).device.steps_completed.contains
        "config_mqtt" = true ∧
      (runDev opts env network naming wifi now).device.state =
        (match env.rollback_mqtt with
         | .ok _ => "rolled_back"
         | .error _ => "failed")) := by
  refine ⟨?_, ?_, ?_, ?_⟩
  · intro hA
    have hc := runRetry_all_fail env.connect_to_shelly f hA opts.max_retries hn 5 .linear
    simp [runDev, provision_device_none, deviceSteps, stepConnect, hc, Flow.bind,
      finishDevice, rollback_device, retryErrorMsg_ne_empty, initSt]
  · intro hc0 hB
    have h1 := runRetry_ok_first env.connect_to_shelly true hc0 5 .linear
      opts.max_retries hn
    have h2 := runRetry_all_fail env.get_device_info f hB opts.max_retries hn
      opts.retry_delay_base .exponential
    have hcontains : (((initSt network naming wifi now).dev.steps_completed ++
        ["connect_ap"]).contains "config_mqtt") = false := by
      simp [initSt]
    simp [runDev, provision_device_none, deviceSteps, stepConnect, stepGetInfo,
      h1, h2, Flow.bind, finishDevice, rollback_device, initSt]
  · intro info hc0 hg0 hC
    have h1 := runRetry_ok_first env.connect_to_shelly true hc0 5 .linear
      opts.max_retries hn
    have h2 := runRetry_ok_first env.get_device_info info hg0
      opts.retry_delay_base .exponential opts.max_retries hn
    have h3 := runRetry_all_fail env.configure_mqtt f hC opts.max_retries hn
      opts.retry_delay_base .exponential
    simp [runDev, provision_device_none, deviceSteps, stepConnect, stepGetInfo,
      stepConfigMqtt, h1, h2, h3, Flow.bind, finishDevice, rollback_device, initSt]
  · intro info hc0 hg0 hm0 hD
    have h1 := runRetry_ok_first env.connect_to_shelly true hc0 5 .linear
      opts.max_retries hn
    have h2 := runRetry_ok_first env.get_device_info info hg0
      opts.retry_delay_base .exponential opts.max_retries hn
    have h3 := runRetry_ok_first env.configure_mqtt () hm0
      opts.retry_delay_base .exponential opts.max_retries hn
    have h4 := runRetry_all_fail env.configure_wifi f hD opts.max_retries hn
      opts.retry_delay_base .exponential
    cases hrb : env.rollback_mqtt with
    | ok u =>
      simp [runDev, provision_device_none, deviceSteps, stepConnect, stepGetInfo,
        stepConfigMqtt, stepConfigWifi, h1, h2, h3, h4, Flow.bind, finishDevice,
        rollback_device, initSt, hrb]
    | error e =>
      simp [runDev, provision_device_none, deviceSteps, stepConnect, stepGetInfo,
        stepConfigMqtt, stepConfigWifi, h1, h2, h3, h4, Flow.bind, finishDevice,
        rollback_device, initSt, hrb]

/-- Candidate network used by the concrete C4 run. -/
def c4Net : WiFiNetwork :=
  { ssid := "ShellyPlus1-A4CF12F45B60", signal := -50 }

/-- Concrete environment for C4: the connect step fails on every
invocation; everything else would succeed. -/
def c4Env : DeviceEnv :=
  { connect_to_shelly := fun _ => .error "connection refused"
    get_device_info := fun _ =>
      .ok ⟨"shellyplus1-a4cf12f45b60", "A4:CF:12:F4:5B:60", "SNSW-001X16EU",
           2, "fw1", "1.0.0", "Plus1"⟩
    configure_mqtt := fun _ => .ok ()
    configure_wifi := fun _ => .ok ()
    disable_cloud := .ok ()
    set_device_name := .ok ()
    set_discoverable := .ok ()
    reboot := .ok ()
    rollback_mqtt := .ok () }

/-- C4 counterexample: a device whose connect step exhausts its retries
ends in state `rolled_back` although no rollback call was issued and
`"config_mqtt"` was never completed — refuting "the record is marked
RolledBack only when such an attempt was made". -/
theorem retry_failure_rollback_C4_counterexample :
    (runDev {} c4Env c4Net {} (some "HomeNet") "t0").device.state =
      "rolled_back" ∧
    (runDev {} c4Env c4Net {} (some "HomeNet") "t0").counts.rollback_mqtt = 0 ∧
    (runDev {} c4Env c4Net {} (some "HomeNet") "t0").device.steps_completed.contains
      "config_mqtt" = false := by
  refine ⟨?_, ?_, ?_⟩ <;> decide

/-- Witness for the amended C4 (scenario: connect step exhausts). -/
theorem retry_failure_rollback_C4_amended_witness :
    (runDev {} c4Env c4Net {} (some "HomeNet") "t0").exc = .retryError ∧
    (runDev {} c4Env c4Net {} (some "HomeNet") "t0").device.error_message =
      some (retryErrorMsg 3 (some "connection refused")) ∧
    retryErrorMsg 3 (some "connection refused") ≠ "" ∧
    (runDev {} c4Env c4Net {} (some "HomeNet") "t0").counts.connect_to_shelly = 3 ∧
    (runDev {} c4Env c4Net {} (some "HomeNet") "t0").counts.rollback_mqtt = 0 ∧
    (runDev {} c4Env c4Net {} (some "HomeNet") "t0").device.steps_completed.contains
      "config_mqtt" = false ∧
    (runDev {} c4Env c4Net {} (some "HomeNet") "t0").device.state = "rolled_back" :=
  (retry_failure_rollback_C4_amended {} c4Env c4Net {} (some "HomeNet") "t0"
    (fun _ => "connection refused") (by decide)).1 (fun _ => rfl)

/-! ### C5: optional steps, C10: the reboot step -/

/-- C5 amended: with the four mandatory steps succeeding (each one
invocation of its retry-wrapped operation), the device always reaches
`completed` no matter how the optional calls behave; the optional
steps (disable-cloud, rename) issue exactly one unretried call each —
a failing optional operation is not invoked `max_retries` times, so
they are not wrapped in the RetryPolicy (see the counterexample) —
and a failed optional step's name is never recorded in
`steps_completed`. -/
theorem optional_steps_C5_amended
    (opts : ProvisioningOptions) (env : DeviceEnv) (network : WiFiNetwork)
    (naming : DeviceNamingConfig) (wifi : Option String) (now : String)
    (info : ShellyDeviceInfo)
    (hn : 1 ≤ opts.max_retries)
    (hc : env.connect_to_shelly 0 = .ok true)
    (hg : env.get_device_info 0 = .ok info)
    (hm : env.configure_mqtt 0 = .ok ())
    (hw : env.configure_wifi 0 = .ok ()) :
    (runDev opts env network naming wifi now).device.state = "completed" ∧
    (runDev opts env network naming wifi now).exc = .noExc ∧
    (runDev opts env network naming wifi now).counts.connect_to_shelly = 1 ∧
    (runDev opts env network naming wifi now).counts.get_device_info = 1 ∧
    (runDev opts env network naming wifi now).counts.configure_mqtt = 1 ∧
    (runDev opts env network naming wifi now).counts.configure_wifi = 1 ∧
    (runDev opts env network naming wifi now).counts.disable_cloud =
      (if opts.disable_shelly_cloud then 1 else 0) ∧
    (runDev opts env network naming wifi now).counts.set_device_name = 1 ∧
    ((runDev opts env network naming wifi now).device.steps_completed.contains
        "disable_cloud" =
      (opts.disable_shelly_cloud && exOk env.disable_cloud)) ∧
    ((runDev opts env network naming wifi now).device.steps_completed.contains
        "rename" =
      (exOk env.set_device_name && exOk env.set_discoverable)) := by
  have h1 := runRetry_ok_first env.connect_to_shelly true hc 5 .linear
    opts.max_retries hn
  have h2 := runRetry_ok_first env.get_device_info info hg
    opts.retry_delay_base .exponential opts.max_retries hn
  have h3 := runRetry_ok_first env.configure_mqtt () hm
    opts.retry_delay_base .exponential opts.max_retries hn
  have h4 := runRetry_ok_first env.configure_wifi () hw
    opts.retry_delay_base .exponential opts.max_retries hn
  cases hdc : opts.disable_shelly_cloud <;>
    cases hcl : env.disable_cloud <;>
      cases hdn : env.set_device_name <;>
        cases hds : env.set_discoverable <;>
          cases hrb : env.reboot <;>
            simp [runDev, provision_device_none, deviceSteps, stepConnect,
              stepGetInfo, stepConfigMqtt, stepConfigWifi, stepDisableCloud,
              stepRename, stepReboot, h1, h2, h3, h4, hdc, hcl, hdn, hds, hrb,
              Flow.bind, finishDevice, exOk, initSt]

/-- Candidate network used by the concrete C5 run. -/
def c5Net : WiFiNetwork :=
  { ssid := "ShellyPlus1-B4CF12F45B61", signal := -42 }

/-- Device info returned in the concrete C5 run. -/
def c5Info : ShellyDeviceInfo :=
  ⟨"shellyplus1-b4cf12f45b61", "B4:CF:12:F4:5B:61", "SNSW-001X16EU",
   2, "fw1", "1.0.0", "Plus1"⟩

/-- Concrete environment for C5: everything succeeds except the
optional disable-cloud call. -/
def c5Env : DeviceEnv :=
  { connect_to_shelly := fun _ => .ok true
    get_device_info := fun _ => .ok c5Info
    configure_mqtt := fun _ => .ok ()
    configure_wifi := fun _ => .ok ()
    disable_cloud := .error "cloud api failed"
    set_device_name := .ok ()
    set_discoverable := .ok ()
    reboot := .ok ()
    rollback_mqtt := .ok () }

/-- C5 counterexample: with `max_retries = 3`, the failing optional
disable-cloud operation is invoked exactly once — not retried to
exhaustion, hence not wrapped in the RetryPolicy — while the device
still completes and the step is not recorded. -/
theorem optional_steps_C5_counterexample :
    (runDev {} c5Env c5Net {} (some "HomeNet") "t0").counts.disable_cloud = 1 ∧
    ({} : ProvisioningOptions).max_retries = 3 ∧
    ¬((runDev {} c5Env c5Net {} (some "HomeNet") "t0").counts.disable_cloud =
      ({} : ProvisioningOptions).max_retries) ∧
    (runDev {} c5Env c5Net {} (some "HomeNet") "t0").device.state = "completed" ∧
    (runDev {} c5Env c5Net {} (some "HomeNet") "t0").device.steps_completed.contains
      "disable_cloud" = false := by
  refine ⟨?_, ?_, ?_, ?_, ?_⟩ <;> decide

/-- Witness for the amended C5 at the concrete run. -/
theorem optional_steps_C5_amended_witness :
    (runDev {} c5Env c5Net {} (some "HomeNet") "t0").device.state = "completed" ∧
    (runDev {} c5Env c5Net {} (some "HomeNet") "t0").device.steps_completed.contains
      "disable_cloud" =
      (({} : ProvisioningOptions).disable_shelly_cloud && exOk c5Env.disable_cloud) := by
  obtain ⟨hstate, -, -, -, -, -, -, -, hdc, -⟩ :=
    optional_steps_C5_amended {} c5Env c5Net {} (some "HomeNet") "t0" c5Info
      (by decide) rfl rfl rfl rfl
  exact ⟨hstate, hdc⟩

/-- C10: whenever the run reaches the reboot step (the mandatory steps
succeeded), `"reboot"` is appended to `steps_completed` and the device
reaches `completed` for every outcome of the reboot call — any raised
exception is swallowed, not only a timeout — and the reboot call is
issued exactly once.  A `completed` record may therefore list
`"reboot"` although the reboot operation itself failed. -/
theorem reboot_always_completes_C10
    (opts : ProvisioningOptions) (env : DeviceEnv) (network : WiFiNetwork)
    (naming : DeviceNamingConfig) (wifi : Option String) (now : String)
    (info : ShellyDeviceInfo)
    (hn : 1 ≤ opts.max_retries)
    (hc : env.connect_to_shelly 0 = .ok true)
    (hg : env.get_device_info 0 = .ok info)
    (hm : env.configure_mqtt 0 = .ok ())
    (hw : env.configure_wifi 0 = .ok ()) :
    (runDev opts env network naming wifi now).device.steps_completed.contains
      "reboot" = true ∧
    (runDev opts env network naming wifi now).device.state = "completed" ∧
    (runDev opts env network naming wifi now).counts.reboot = 1 := by
  have h1 := runRetry_ok_first env.connect_to_shelly true hc 5 .linear
    opts.max_retries hn
  have h2 := runRetry_ok_first env.get_device_info info hg
    opts.retry_delay_base .exponential opts.max_retries hn
  have h3 := runRetry_ok_first env.configure_mqtt () hm
    opts.retry_delay_base .exponential opts.max_retries hn
  have h4 := runRetry_ok_first env.configure_wifi () hw
    opts.retry_delay_base .exponential opts.max_retries hn
  cases hdc : opts.disable_shelly_cloud <;>
    cases hcl : env.disable_cloud <;>
      cases hdn : env.set_device_name <;>
        cases hds : env.set_discoverable <;>
          cases hrb : env.reboot <;>
            simp [runDev, provision_device_none, deviceSteps, stepConnect,
              stepGetInfo, stepConfigMqtt, stepConfigWifi, stepDisableCloud,
              stepRename, stepReboot, h1, h2, h3, h4, hdc, hcl, hdn, hds, hrb,
              Flow.bind, finishDevice, initSt]

/-- Candidate network used by the concrete C10 run. -/
def c10Net : WiFiNetwork :=
  { ssid := "ShellyPlus1-C4CF12F45B62", signal := -60 }

/-- Device info returned in the concrete C10 run. -/
def c10Info : ShellyDeviceInfo :=
  ⟨"shellyplus1-c4cf12f45b62", "C4:CF:12:F4:5B:62", "SNSW-001X16EU",
   2, "fw1", "1.0.0", "Plus1"⟩

/-- Concrete environment for C10: everything succeeds except the reboot
call, which raises a connection error (not a timeout). -/
def c10Env : DeviceEnv :=
  { connect_to_shelly := fun _ => .ok true
    get_device_info := fun _ => .ok c10Info
    configure_mqtt := fun _ => .ok ()
    configure_wifi := fun _ => .ok ()
    disable_cloud := .ok ()
    set_device_name := .ok ()
    set_discoverable := .ok ()
    reboot := .error "connection reset by peer"
    rollback_mqtt := .ok () }

/-- Witness for C10: the reboot call raises, yet `"reboot"` is recorded
and the device completes. -/
theorem reboot_always_completes_C10_witness :
    (runDev {} c10Env c10Net {} (some "HomeNet") "t0").device.steps_completed.contains
      "reboot" = true ∧
    (runDev {} c10Env c10Net {} (some "HomeNet") "t0").device.state = "completed" ∧
    (runDev {} c10Env c10Net {} (some "HomeNet") "t0").counts.reboot = 1 :=
  reboot_always_completes_C10 {} c10Env c10Net {} (some "HomeNet") "t0" c10Info
    (by decide) rfl rfl rfl rfl

/-! ### C3: the batch loop; C8: the WiFi association across a batch -/

/-- `provision_batch` (provisioner.py:378-434): strictly sequential
loop, one record per candidate, appended in order; the naming counter
and the operator's association thread through the devices.  The session
bookkeeping and checkpoint writes (provisioner.py:393-426) do not alter
the records.  `original_network` is captured at entry
(provisioner.py:401) but at the end only a reconnection notice is
printed — no reconnect call is made (provisioner.py:428-432). -/
def provision_batch (opts : ProvisioningOptions) (now : String) :
    List (WiFiNetwork × DeviceEnv) → DeviceNamingConfig → Option String →
    List ProvisionedDevice × DeviceNamingConfig × Option String
  | [], naming, wifi => ([], naming, wifi)
  | (network, env) :: rest, naming, wifi =>
    let r := provision_device opts env network none naming wifi now
    let tail := provision_batch opts now rest r.2 r.1.wifi
    (r.1.device :: tail.1, tail.2)

theorem provision_batch_spec (opts : ProvisioningOptions) (now : String) :
    ∀ (items : List (WiFiNetwork × DeviceEnv)) (naming : DeviceNamingConfig)
      (wifi : Option String),
      ((provision_batch opts now items naming wifi).1).map
          (fun d => d.ap_ssid) = items.map (fun p => p.1.ssid) ∧
      (∀ d ∈ (provision_batch opts now items naming wifi).1,
        d.state = "completed" ∨ d.state = "failed" ∨ d.state = "rolled_back") ∧
      ((provision_batch opts now items naming wifi).1).map
          (fun d => d.assigned_name) =
        (List.range items.length).map
          (fun i => some (deviceName naming.prefix_str (naming.current_number + i))) ∧
      (provision_batch opts now items naming wifi).2.1 =
        { naming with current_number := naming.current_number + items.length }
  | [], naming, wifi => by
    simp [provision_batch]
  | (network, env) :: rest, naming, wifi => by
    obtain ⟨hap, hname, hts, hnm, hstate⟩ :=
      provision_device_shape opts env network naming wifi now
    simp only [runDev] at hap hname hts hstate
    obtain ⟨ihap, ihstate, ihnames, ihnaming⟩ :=
      provision_batch_spec opts now rest
        { naming with current_number := naming.current_number + 1 }
        ((provision_device opts env network none naming wifi now).1).wifi
    simp only [provision_batch]
    rw [hnm]
    refine ⟨?_, ?_, ?_, ?_⟩
    · simp only [List.map_cons, List.length_cons, hap, ihap]
    · intro d hd
      rcases List.mem_cons.mp hd with rfl | hd
      · exact hstate
      · exact ihstate d hd
    · simp only [List.map_cons, List.length_cons, hname, ihnames,
        List.range_succ_eq_map, List.map_map]
      have hfun :
          ((fun i => some (deviceName naming.prefix_str
              (naming.current_number + i))) ∘ Nat.succ) =
          (fun i => some (deviceName naming.prefix_str
              (naming.current_number + 1 + i))) := by
        funext i
        simp only [Function.comp, Nat.succ_eq_add_one]
        rw [show naming.current_number + (i + 1) =
          naming.current_number + 1 + i from by omega]
      rw [hfun]
      simp
    · rw [ihnaming]
      simp only [List.length_cons]
      congr 1
      omega

/-- C3: `provision_batch` on `N` candidates returns exactly `N`
records, one per candidate in order (the `i`-th record's `ap_ssid` is
the `i`-th candidate's SSID — the loop never aborts early, so a failed
device does not prevent the remaining candidates from being
processed); every record's state is terminal; the assigned names are
the consecutive names of the never-decremented naming counter, so no
two records share an `assigned_name` even when devices fail. -/
theorem provision_batch_C3 (opts : ProvisioningOptions) (now : String)
    (items : List (WiFiNetwork × DeviceEnv)) (naming : DeviceNamingConfig)
    (wifi : Option String) :
    ((provision_batch opts now items naming wifi).1).length = items.length ∧
    ((provision_batch opts now items naming wifi).1).map (fun d => d.ap_ssid) =
      items.map (fun p => p.1.ssid) ∧
    (∀ d ∈ (provision_batch opts now items naming wifi).1,
      d.state = "completed" ∨ d.state = "failed" ∨ d.state = "rolled_back") ∧
    ((provision_batch opts now items naming wifi).1).map
        (fun d => d.assigned_name) =
      (List.range items.length).map
        (fun i => some (deviceName naming.prefix_str (naming.current_number + i))) ∧
    (((provision_batch opts now items naming wifi).1).map
        (fun d => d.assigned_name)).Pairwise (· ≠ ·) := by
  obtain ⟨hap, hstate, hnames, -⟩ := provision_batch_spec opts now items naming wifi
  refine ⟨?_, hap, hstate, hnames, ?_⟩
  · have := congrArg List.length hap
    simpa using this
  · rw [hnames, List.pairwise_map]
    have h := List.pairwise_lt_range items.length
    exact h.imp (fun hab heq => by
      have h1 := deviceName_inj naming.prefix_str (Option.some.inj heq)
      omega)

/-- Candidate network used by the concrete C8 run. -/
def c8Net : WiFiNetwork :=
  { ssid := "ShellyPlus1-D4CF12F45B63", signal := -47 }

/-- Concrete environment for C8: a fully successful device run. -/
def c8Env : DeviceEnv :=
  { connect_to_shelly := fun _ => .ok true
    get_device_info := fun _ =>
      .ok ⟨"shellyplus1-d4cf12f45b63", "D4:CF:12:F4:5B:63", "SNSW-001X16EU",
           2, "fw1", "1.0.0", "Plus1"⟩
    configure_mqtt := fun _ => .ok ()
    configure_wifi := fun _ => .ok ()
    disable_cloud := .ok ()
    set_device_name := .ok ()
    set_discoverable := .ok ()
    reboot := .ok ()
    rollback_mqtt := .ok () }

/-- C8 counterexample: after a normally completed one-device batch that
started associated to `"HomeNet"`, `provision_batch` returns with the
operator still associated to the device's AP — the pre-batch
association has not been restored when the caller observes the
result. -/
theorem wifi_restore_C8_counterexample :
    (provision_batch {} "t0" [(c8Net, c8Env)] {} (some "HomeNet")).2.2 =
      some "ShellyPlus1-D4CF12F45B63" ∧
    ¬((provision_batch {} "t0" [(c8Net, c8Env)] {} (some "HomeNet")).2.2 =
      some "HomeNet") := by
  refine ⟨?_, ?_⟩ <;> decide

/-- The provisioning flow of `RCCApp._provision_devices` around the
batch (main.py:317, 347-350, 371-396): the association is captured
before the batch; after `provision_batch` returns its results — and
only on that normal path, the `except` handlers at main.py:415-419 do
not reconnect — a single reconnect attempt to the captured association
is made when one existed (with the target network's password,
main.py:375-376); on failure the association stays wherever the batch
left it. -/
def main_provision_flow (opts : ProvisioningOptions) (now : String)
    (items : List (WiFiNetwork × DeviceEnv)) (naming : DeviceNamingConfig)
    (wifi : Option String) (reconnect_succeeds : Bool) :
    List ProvisionedDevice × Option String :=
  let original := wifi
  let batch := provision_batch opts now items naming wifi
  match original with
  | none => (batch.1, batch.2.2)
  | some ssid =>
    if reconnect_succeeds then (batch.1, some ssid) else (batch.1, batch.2.2)

/-- C8 amended: the pre-batch association is captured, but
`provision_batch` itself returns without restoring it (counterexample
above); the caller in main attempts one reconnect only after the
batch's results exist and only when a pre-batch association existed;
the association equals the pre-batch value iff that attempt succeeds,
and otherwise stays wherever the batch left it. -/
theorem wifi_restore_C8_amended (opts : ProvisioningOptions) (now : String)
    (items : List (WiFiNetwork × DeviceEnv)) (naming : DeviceNamingConfig)
    (s : String) (rs : Bool) :
    (main_provision_flow opts now items naming (some s) rs).1 =
      (provision_batch opts now items naming (some s)).1 ∧
    (main_provision_flow opts now items naming (some s) rs).2 =
      (if rs then some s
       else (provision_batch opts now items naming (some s)).2.2) ∧
    (main_provision_flow opts now items naming none rs).2 =
      (provision_batch opts now items naming none).2.2 := by
  cases rs <;> simp [main_provision_flow]

end RCC
